import Mathlib

/-!
Verification development for the PDF preview benchmark (src/main.py).

The program is embedded shallowly: paths are component lists, Python ints are
Lean `Int`, external-library calls are recorded as traces, nondeterminism of
the outside world (exceptions raised by libraries, number of images returned
by pdf2image, directory-creation failures, wall-clock durations) is passed in
as explicit oracle arguments.
-/

/-- A filesystem path, as its list of components (Python `pathlib.Path`). -/
abbrev FsPath := List String

/-- Rendering of a path as a string, components joined by the separator
(`str(path)` on a posix `pathlib.Path`). -/
def fsPathStr (p : FsPath) : String := String.intercalate "/" p

/-- Python `path.name`: the final component of a path (empty for the empty path). -/
def pathName (p : FsPath) : String := p.getLastD ""

/-- Digit characters of a natural number, most significant first, computed with
structural fuel so that the kernel can evaluate it.  With `fuel ≥ n` this is
the full decimal expansion of `n` (empty for `n = 0`). -/
def pyStrNatAux : Nat → Nat → List Char
  | 0, _ => []
  | _ + 1, 0 => []
  | fuel + 1, n + 1 => pyStrNatAux fuel ((n + 1) / 10) ++ [Nat.digitChar ((n + 1) % 10)]

/-- Python `str` on a nonnegative integer: plain decimal digits. -/
def pyStrNat (n : Nat) : String :=
  if n = 0 then "0" else ⟨pyStrNatAux n n⟩

/-- Python `str` on an `int`: decimal digits, with a leading minus sign for
negative values. -/
def pyStr : Int → String
  | Int.ofNat n => pyStrNat n
  | Int.negSucc n => "-" ++ pyStrNat (n + 1)

/-- The fractional part of Python `f"{x:.4f}"`: exactly four digits,
zero-padded on the left.  The argument is the fractional value in
ten-thousandths (already `< 10000` at every use site). -/
def zeroPad4 (m : Nat) : String :=
  ⟨List.replicate (4 - (pyStrNat m).length) (Char.ofNat 48) ++ (pyStrNat m).data⟩

/-- Python `f"{duration:.4f}"` for a nonnegative duration given in
ten-thousandths of a second: integral part, a dot, then exactly four
fractional digits. -/
def format4f (t : Nat) : String :=
  pyStrNat (t / 10000) ++ "." ++ zeroPad4 (t % 10000)

/-- A single-quote character (avoids an apostrophe literal in the source). -/
def squote : String := ⟨[Char.ofNat 39]⟩

/-- Python `repr` of a quote-free string such as `"png"` or `"jpeg"` (as
produced by the `{image_type=}` f-string interpolation). -/
def pyRepr (s : String) : String := squote ++ s ++ squote

/-- Index of the last `.` in a character list (Python `str.rfind`),
`none` when there is no dot. -/
def rfindDotIdx (l : List Char) : Option Nat :=
  match l.reverse.findIdx? (fun c => c = '.') with
  | some j => some (l.length - 1 - j)
  | none => none

/-- The stem component of `os.path.splitext` applied to a bare file name
(no separator present): split at the last dot, except that a name whose
characters before that dot are all dots (e.g. `".pdf"`) is not split. -/
def splitextStem (name : String) : String :=
  match rfindDotIdx name.data with
  | none => name
  | some i =>
    if (name.data.take i).any (fun c => c != '.') then ⟨name.data.take i⟩ else name

/-- Whether a file name matches the glob pattern `"*.pdf"` used in
`PreviewGenerationEvaluator.__init__` (src/main.py:161): `*` matches any
(possibly empty) sequence of characters, so this is exactly a case-sensitive
`.pdf` suffix test. -/
def matches_pdf_glob (name : String) : Bool :=
  decide (".pdf".data <:+ name.data)

/-- A directory entry as seen by the discovery step: its path relative to the
input directory (one component per nesting level) and the result of
`Path.is_file()` on it. -/
structure FSEntry where
  relPath : List String
  is_file : Bool
deriving DecidableEq

/-- The unsorted discovery of src/main.py:161-162: `glob("*.pdf")` yields the
direct children (relative path of length one) whose name matches the pattern,
and the comprehension keeps those for which `is_file()` holds.  The result is
the list of matching file names in directory order. -/
def discover_unsorted (dir : List FSEntry) : List String :=
  dir.filterMap fun e =>
    match e.relPath with
    | [name] => if matches_pdf_glob name && e.is_file then some name else none
    | _ => none

/-- Lexicographic code-point comparison of character lists: exactly how
Python compares two `str` values. -/
def charListLe : List Char → List Char → Bool
  | [], _ => true
  | _ :: _, [] => false
  | a :: as, b :: bs =>
    if a.toNat < b.toNat then true
    else if b.toNat < a.toNat then false
    else charListLe as bs

/-- Python string comparison `a <= b` (lexicographic by code point). -/
def nameLe (a b : String) : Bool := charListLe a.data b.data

/-- Value of `self.input_files` after `PreviewGenerationEvaluator.__init__`
(src/main.py:161-163): the discovered names sorted by file name
(`sort(key=lambda input_file: input_file.name)`, Python string order). -/
def discover_input_files (dir : List FSEntry) : List String :=
  List.insertionSort (fun a b => nameLe a b = true) (discover_unsorted dir)

/-- The PNG quality translation `int(quality / 100 * 9)` shared by the
pdf2image, pypdfium2 and pyvips adapters (src/main.py:99,136,153).  Python
`int()` truncates toward zero; for the 0-100 qualities in scope the float
product `quality / 100 * 9` truncates to the same integer as the exact
rational `quality * 9 / 100`, which `Int.tdiv` computes. -/
def compress_level (quality : Int) : Int := Int.tdiv (quality * 9) 100

/-- The rescaling formula as the specification states it, in its own words:
`round(quality / 100 * 9)`, i.e. the nearest integer to `quality * 9 / 100`,
written as `⌊q * 9 / 100 + 1 / 2⌋` over the nonnegative qualities in scope
(no exact half occurs at any input this development evaluates it on, so the
tie-breaking convention is irrelevant). -/
def specRoundScale (q : Nat) : Nat := (q * 9 * 2 + 100) / 200

/-- Parse a trailing `[k]` page selector (single digit) from a wand file name
argument such as `"input.pdf[0]"`. -/
def bracketPage (s : String) : Option Nat :=
  match s.data.reverse with
  | c1 :: c2 :: c3 :: _ =>
    if c1 = ']' ∧ c3 = '[' ∧ c2.isDigit then some (c2.toNat - 48) else none
  | _ => none

/-- One `PIL.Image.save` call (used by the pdf2image and pypdfium2 adapters):
destination path, format argument, and the keyword argument carrying the
quality or compression level together with its value. -/
structure PilSave where
  path : FsPath
  fmt : String
  kwarg : String
  value : Int
deriving DecidableEq

/-- One `fitz.Pixmap.save` call: destination, format argument and the
`jpg_quality` keyword value. -/
structure FitzSave where
  path : FsPath
  fmtArg : String
  jpgQuality : Int
deriving DecidableEq

/-- One `pyvips ... write_to_file` call: destination and the keyword argument
(`Q` or `compression`) with its value. -/
structure PyvipsWrite where
  path : FsPath
  kwarg : String
  value : Int
deriving DecidableEq

/-- Trace of the external calls of `WandPreviewGenerator._create_preview`
(src/main.py:60-75) on its exception-free path. -/
structure WandTrace where
  filenameArg : String
  resolutionArg : Int
  backgroundColor : String
  alphaChannel : String
  colorspaceArg : String
  formatAssigned : String
  compressionQuality : Int
  saveCalls : List FsPath
deriving DecidableEq

/-- Model of `WandPreviewGenerator._create_preview`: open `f"{input_path}[0]"` at
`resolution=dpi`, flatten against white, set the format and
`compression_quality = quality`, save to the output path.  `docPages` is the
page count of the input document; the code never consults it. -/
def wand_create_preview (input output : FsPath) (dpi quality : Int)
    (image_type : String) (docPages : Nat) : WandTrace :=
  { filenameArg := fsPathStr input ++ "[0]"
    resolutionArg := dpi
    backgroundColor := "white"
    alphaChannel := "remove"
    colorspaceArg := "srgb"
    formatAssigned := image_type
    compressionQuality := quality
    saveCalls := [output] }

/-- Trace of `Pdf2imagePreviewGenerator._create_preview` (src/main.py:78-100). -/
structure Pdf2imageTrace where
  inputArg : FsPath
  dpiArg : Int
  firstPage : Nat
  lastPage : Nat
  fmtArg : String
  threadCount : Nat
  saveCalls : List PilSave
deriving DecidableEq

/-- Model of `Pdf2imagePreviewGenerator._create_preview`: call `convert_from_path`
with `first_page=1, last_page=1`; `numImages` is the length of the returned
list, and only `if images:` is a save performed — JPEG with `quality=quality`
for `"jpeg"`, else PNG with `compress_level=int(quality / 100 * 9)`. -/
def pdf2image_create_preview (input output : FsPath) (dpi quality : Int)
    (image_type : String) (docPages numImages : Nat) : Pdf2imageTrace :=
  { inputArg := input
    dpiArg := dpi
    firstPage := 1
    lastPage := 1
    fmtArg := image_type
    threadCount := 1
    saveCalls :=
      if 0 < numImages then
        [if image_type = "jpeg" then
           { path := output, fmt := "JPEG", kwarg := "quality", value := quality }
         else
           { path := output, fmt := "PNG", kwarg := "compress_level",
             value := compress_level quality }]
      else [] }

/-- Trace of `FitzPreviewGenerator._create_preview` (src/main.py:103-118). -/
structure FitzTrace where
  inputArg : FsPath
  loadPageArg : Nat
  pixmapDpi : Int
  saveCalls : List FitzSave
deriving DecidableEq

/-- Model of `FitzPreviewGenerator._create_preview`: open the document, `load_page(0)`,
`get_pixmap(dpi=dpi)`, then `pix.save(output_path, image_type,
jpg_quality=quality)` — the quality is passed through unchanged for every
image type. -/
def fitz_create_preview (input output : FsPath) (dpi quality : Int)
    (image_type : String) (docPages : Nat) : FitzTrace :=
  { inputArg := input
    loadPageArg := 0
    pixmapDpi := dpi
    saveCalls := [{ path := output, fmtArg := image_type, jpgQuality := quality }] }

/-- Trace of `Pypdfium2PreviewGenerator._create_preview` (src/main.py:121-137). -/
structure Pypdfium2Trace where
  inputArg : FsPath
  docIndex : Nat
  scale : ℚ
  saveCalls : List PilSave
deriving DecidableEq

/-- Model of `Pypdfium2PreviewGenerator._create_preview`: open the document, take
`doc[0]`, render at `scale=dpi / 72`, then save JPEG with `quality=quality`
for `"jpeg"`, else PNG with `compress_level=int(quality / 100 * 9)`. -/
def pypdfium2_create_preview (input output : FsPath) (dpi quality : Int)
    (image_type : String) (docPages : Nat) : Pypdfium2Trace :=
  { inputArg := input
    docIndex := 0
    scale := (dpi : ℚ) / 72
    saveCalls :=
      [if image_type = "jpeg" then
         { path := output, fmt := "JPEG", kwarg := "quality", value := quality }
       else
         { path := output, fmt := "PNG", kwarg := "compress_level",
           value := compress_level quality }] }

/-- Trace of `PyvipsPreviewGenerator._create_preview` (src/main.py:140-154). -/
structure PyvipsTrace where
  inputArg : FsPath
  newFromFileDpi : Int
  pageArg : Nat
  writeCalls : List PyvipsWrite
deriving DecidableEq

/-- Model of `PyvipsPreviewGenerator._create_preview`: `new_from_file(str(input),
dpi=dpi, page=0)`, then `write_to_file` with `Q=quality` for `"jpeg"`, else
with `compression=int(quality / 100 * 9)`. -/
def pyvips_create_preview (input output : FsPath) (dpi quality : Int)
    (image_type : String) (docPages : Nat) : PyvipsTrace :=
  { inputArg := input
    newFromFileDpi := dpi
    pageArg := 0
    writeCalls :=
      [if image_type = "jpeg" then
         { path := output, kwarg := "Q", value := quality }
       else
         { path := output, kwarg := "compression", value := compress_level quality }] }

/-- The `GeneratorType` string enum (src/main.py:20-26). -/
inductive GeneratorType
  | WAND
  | PDF2IMAGE
  | FITZ
  | PYPDFIUM2
  | PYVIPS
deriving DecidableEq

/-- The string value of each `GeneratorType` member (what `str()` and
f-string interpolation produce for a `StrEnum`). -/
def GeneratorType.value : GeneratorType → String
  | .WAND => "wand"
  | .PDF2IMAGE => "pdf2image"
  | .FITZ => "fitz"
  | .PYPDFIUM2 => "pypdfium2"
  | .PYVIPS => "pyvips"

/-- The five concrete subclasses of `BasePreviewGenerator`. -/
inductive GeneratorClass
  | WandPreviewGenerator
  | Pdf2imagePreviewGenerator
  | FitzPreviewGenerator
  | Pypdfium2PreviewGenerator
  | PyvipsPreviewGenerator
deriving DecidableEq

/-- Value of `self.__class__.__name__` for an instance of each generator class. -/
def GeneratorClass.clsName : GeneratorClass → String
  | .WandPreviewGenerator => "WandPreviewGenerator"
  | .Pdf2imagePreviewGenerator => "Pdf2imagePreviewGenerator"
  | .FitzPreviewGenerator => "FitzPreviewGenerator"
  | .Pypdfium2PreviewGenerator => "Pypdfium2PreviewGenerator"
  | .PyvipsPreviewGenerator => "PyvipsPreviewGenerator"

/-- Model of `PreviewGenerationEvaluator.register_generator` (src/main.py:172-177):
store an instance of the class under the given key, overwriting any previous
entry (Python dict assignment). -/
def register_generator (reg : GeneratorType → Option GeneratorClass)
    (t : GeneratorType) (c : GeneratorClass) : GeneratorType → Option GeneratorClass :=
  fun x => if x = t then some c else reg x

/-- The generator registry after `PreviewGenerationEvaluator.__init__`
(src/main.py:166-170): the five `register_generator` calls in order, starting
from the empty dict. -/
def initRegistry : GeneratorType → Option GeneratorClass :=
  register_generator
    (register_generator
      (register_generator
        (register_generator
          (register_generator (fun _ => none) .WAND .WandPreviewGenerator)
          .PDF2IMAGE .Pdf2imagePreviewGenerator)
        .FITZ .FitzPreviewGenerator)
      .PYPDFIUM2 .Pypdfium2PreviewGenerator)
    .PYVIPS .PyvipsPreviewGenerator

/-- Python dict subscription of `d[k]`: `some` on a hit, `none` models the
`KeyError` branch. -/
def dictGet (reg : GeneratorType → Option GeneratorClass) (t : GeneratorType) :
    Option GeneratorClass := reg t

/-- The behaviour of the external world during one `_create_preview` call:
whether some library call raises (and with what message), which files had
already been written when it raised, how many images `convert_from_path`
returns (pdf2image only), and the page count of the input document. -/
structure ExtBehavior where
  exc : Option String
  partialFiles : List FsPath
  numImages : Nat
  docPages : Nat
deriving DecidableEq

/-- Observable result of one `BasePreviewGenerator.create_preview` call: the
lines printed, the files written, and the exception escaping the call
(`none` when it returns normally). -/
structure CallResult where
  log : List String
  files : List FsPath
  raised : Option String
deriving DecidableEq

/-- The success line of `create_preview` (src/main.py:43-45):
`f"{cls} {name} {dpi=} {quality=} {image_type=}: {duration:.4f}"`. -/
def success_line (clsName fileName : String) (dpi quality : Int)
    (image_type : String) (durTT : Nat) : String :=
  clsName ++ " " ++ fileName ++ " " ++ "dpi=" ++ pyStr dpi ++ " " ++ "quality="
    ++ pyStr quality ++ " " ++ "image_type=" ++ pyRepr image_type ++ ": "
    ++ format4f durTT

/-- The failure line of `create_preview` (src/main.py:47). -/
def error_line (clsName err : String) : String :=
  "An error occurred with " ++ clsName ++ " preview generation: " ++ err

/-- The files written by `_create_preview` of the given class when it raises
no exception, read off the adapter traces. -/
def success_files (cls : GeneratorClass) (input output : FsPath)
    (dpi quality : Int) (image_type : String) (env : ExtBehavior) : List FsPath :=
  match cls with
  | .WandPreviewGenerator =>
    (wand_create_preview input output dpi quality image_type env.docPages).saveCalls
  | .Pdf2imagePreviewGenerator =>
    ((pdf2image_create_preview input output dpi quality image_type env.docPages
        env.numImages).saveCalls).map PilSave.path
  | .FitzPreviewGenerator =>
    ((fitz_create_preview input output dpi quality image_type env.docPages).saveCalls).map
      FitzSave.path
  | .Pypdfium2PreviewGenerator =>
    ((pypdfium2_create_preview input output dpi quality image_type
        env.docPages).saveCalls).map PilSave.path
  | .PyvipsPreviewGenerator =>
    ((pyvips_create_preview input output dpi quality image_type
        env.docPages).writeCalls).map PyvipsWrite.path

/-- Model of `BasePreviewGenerator.create_preview` (src/main.py:30-47): time the inner
`_create_preview`; on normal completion print the success line, on any
exception print the failure line; either way return normally.  `durTT` is the
measured duration in ten-thousandths of a second. -/
def create_preview (cls : GeneratorClass) (input output : FsPath)
    (dpi quality : Int) (image_type : String) (env : ExtBehavior)
    (durTT : Nat) : CallResult :=
  match env.exc with
  | some e =>
    { log := [error_line cls.clsName e]
      files := env.partialFiles
      raised := none }
  | none =>
    { log := [success_line cls.clsName (pathName input) dpi quality image_type durTT]
      files := success_files cls input output dpi quality image_type env
      raised := none }

/-- One render task: the (dpi, quality, input file) triple of the benchmark
cross product. -/
structure RenderTask where
  dpi : Int
  quality : Int
  fileName : String
deriving DecidableEq

/-- The cross product iterated by `run_preview_benchmark`
(src/main.py:187-189): DPI outermost, then quality, then input file. -/
def tasks (dpi_set quality_set : List Int) (files : List String) : List RenderTask :=
  dpi_set.flatMap fun dpi =>
    quality_set.flatMap fun quality =>
      files.map fun f => { dpi := dpi, quality := quality, fileName := f }

/-- The state a `PreviewGenerationEvaluator` carries into
`run_preview_benchmark`: the input directory, the discovered (sorted) input
file names, and the output root. -/
structure Evaluator where
  inputDir : FsPath
  input_files : List String
  output_path : FsPath
deriving DecidableEq

/-- Model of `PreviewGenerationEvaluator.__init__` (src/main.py:160-164) as far as the
driver state is concerned: discover and sort the input files. -/
def evaluator_init (inputDir : FsPath) (dirEntries : List FSEntry)
    (outputPath : FsPath) : Evaluator :=
  { inputDir := inputDir
    input_files := discover_input_files dirEntries
    output_path := outputPath }

/-- The output directory of a task (src/main.py:190-193):
`output_path / image_type / splitext-stem / str(dpi) / str(quality)`. -/
def task_output_dir (ev : Evaluator) (image_type : String) (t : RenderTask) : FsPath :=
  ev.output_path ++
    [image_type, splitextStem t.fileName, pyStr t.dpi, pyStr t.quality]

/-- The output file of a task (src/main.py:197):
the output directory extended with `f"{generator_type}.{image_type}"`. -/
def task_output_file (ev : Evaluator) (gt : GeneratorType) (image_type : String)
    (t : RenderTask) : FsPath :=
  task_output_dir ev image_type t ++ [gt.value ++ "." ++ image_type]

/-- Outcome of the benchmark loop: the tasks whose adapter invocation was
reached (in order), all printed lines (in order), and the uncaught exception
that aborted the loop, if any. -/
structure RunOutcome where
  attempted : List RenderTask
  log : List String
  error : Option String
deriving DecidableEq

/-- The body of the benchmark loop over an explicit task list
(src/main.py:187-201).  For each task: `output_dir.mkdir` — a failure
(oracle `mkdirErr`) aborts the whole loop uncaught; then the registry lookup
`self.__generators[generator_type]` — a missing key would abort with a
`KeyError`; then the adapter's `create_preview`. -/
def runTasks (ev : Evaluator) (gt : GeneratorType) (image_type : String)
    (mkdirErr : FsPath → Option String) (ext : RenderTask → ExtBehavior)
    (dur : RenderTask → Nat) : List RenderTask → RunOutcome
  | [] => { attempted := [], log := [], error := none }
  | t :: ts =>
    match mkdirErr (task_output_dir ev image_type t) with
    | some e => { attempted := [], log := [], error := some e }
    | none =>
      match dictGet initRegistry gt with
      | none => { attempted := [], log := [], error := some "KeyError" }
      | some cls =>
        let r := create_preview cls (ev.inputDir ++ [t.fileName])
          (task_output_file ev gt image_type t) t.dpi t.quality image_type
          (ext t) (dur t)
        let rest := runTasks ev gt image_type mkdirErr ext dur ts
        { attempted := t :: rest.attempted
          log := r.log ++ rest.log
          error := rest.error }

/-- Model of `PreviewGenerationEvaluator.run_preview_benchmark` (src/main.py:179-201):
run the loop over the full cross product of the configuration. -/
def run_preview_benchmark (ev : Evaluator) (gt : GeneratorType)
    (dpi_set quality_set : List Int) (image_type : String)
    (mkdirErr : FsPath → Option String) (ext : RenderTask → ExtBehavior)
    (dur : RenderTask → Nat) : RunOutcome :=
  runTasks ev gt image_type mkdirErr ext dur (tasks dpi_set quality_set ev.input_files)

/-- Proposition that `x` occurs as a contiguous substring of `s`. -/
def appearsIn (x s : String) : Prop := ∃ u v : String, s = u ++ x ++ v

theorem digitChar_inj_of_lt {a b : Nat} (ha : a < 10) (hb : b < 10)
    (h : Nat.digitChar a = Nat.digitChar b) : a = b := by
  interval_cases a <;> interval_cases b <;> revert h <;> decide

theorem digitChar_ne_dash {d : Nat} (hd : d < 10) : Nat.digitChar d ≠ '-' := by
  interval_cases d <;> decide

theorem map_digitChar_inj : ∀ {l₁ l₂ : List Nat}, (∀ d ∈ l₁, d < 10) →
    (∀ d ∈ l₂, d < 10) → l₁.map Nat.digitChar = l₂.map Nat.digitChar → l₁ = l₂ := by
  intro l₁
  induction l₁ with
  | nil => intro l₂ _ _ h; cases l₂ <;> simp_all
  | cons a l₁ ih =>
    intro l₂ h₁ h₂ h
    cases l₂ with
    | nil => simp_all
    | cons b l₂ =>
      simp only [List.map_cons, List.cons.injEq] at h
      have hab : a = b :=
        digitChar_inj_of_lt (h₁ a (by simp)) (h₂ b (by simp)) h.1
      have : l₁ = l₂ :=
        ih (fun d hd => h₁ d (by simp [hd])) (fun d hd => h₂ d (by simp [hd])) h.2
      simp [hab, this]

theorem pyStrNatAux_eq_digits : ∀ (fuel n : Nat), n ≤ fuel →
    pyStrNatAux fuel n = ((Nat.digits 10 n).map Nat.digitChar).reverse := by
  intro fuel
  induction fuel with
  | zero =>
    intro n hn
    interval_cases n
    simp [pyStrNatAux]
  | succ fuel ih =>
    intro n hn
    match n with
    | 0 => simp [pyStrNatAux]
    | m + 1 =>
      have hdiv : (m + 1) / 10 < m + 1 := Nat.div_lt_self (Nat.succ_pos m) (by norm_num)
      rw [pyStrNatAux, ih ((m + 1) / 10) (by omega),
        Nat.digits_def' (by norm_num : (1 : Nat) < 10) (Nat.succ_pos m)]
      simp

theorem pyStrNat_data_of_ne_zero {n : Nat} (hn : n ≠ 0) :
    (pyStrNat n).data = ((Nat.digits 10 n).map Nat.digitChar).reverse := by
  rw [pyStrNat, if_neg hn]
  exact pyStrNatAux_eq_digits n n le_rfl

theorem pyStrNat_no_dash (n : Nat) : '-' ∉ (pyStrNat n).data := by
  by_cases hn : n = 0
  · subst hn; decide
  · rw [pyStrNat_data_of_ne_zero hn]
    intro hmem
    rw [List.mem_reverse, List.mem_map] at hmem
    obtain ⟨d, hd, hchar⟩ := hmem
    exact digitChar_ne_dash (Nat.digits_lt_base (by norm_num) hd) hchar

theorem pyStrNat_injective : ∀ {m n : Nat}, pyStrNat m = pyStrNat n → m = n := by
  have key : ∀ {m n : Nat}, m ≠ 0 → n ≠ 0 → pyStrNat m = pyStrNat n → m = n := by
    intro m n hm hn h
    have hdata := congrArg String.data h
    rw [pyStrNat_data_of_ne_zero hm, pyStrNat_data_of_ne_zero hn] at hdata
    have hmap := List.reverse_injective hdata
    have hdig : Nat.digits 10 m = Nat.digits 10 n :=
      map_digitChar_inj (fun d hd => Nat.digits_lt_base (by norm_num) hd)
        (fun d hd => Nat.digits_lt_base (by norm_num) hd) hmap
    have := congrArg (Nat.ofDigits 10) hdig
    rwa [Nat.ofDigits_digits, Nat.ofDigits_digits] at this
  intro m n h
  by_cases hm : m = 0 <;> by_cases hn : n = 0
  · omega
  · exfalso
    have hdata := congrArg String.data h
    subst hm
    rw [pyStrNat_data_of_ne_zero hn] at hdata
    have : ((Nat.digits 10 n).map Nat.digitChar).reverse = ['0'] := hdata.symm
    have hmap : (Nat.digits 10 n).map Nat.digitChar = [0].map Nat.digitChar := by
      have := congrArg List.reverse this
      simpa using this
    have hdig : Nat.digits 10 n = [0] :=
      map_digitChar_inj (fun d hd => Nat.digits_lt_base (by norm_num) hd)
        (by intro d hd; simp at hd; omega) hmap
    have := congrArg (Nat.ofDigits 10) hdig
    rw [Nat.ofDigits_digits] at this
    simp [Nat.ofDigits] at this
    exact hn this
  · exfalso
    have hdata := congrArg String.data h
    subst hn
    rw [pyStrNat_data_of_ne_zero hm] at hdata
    have : ((Nat.digits 10 m).map Nat.digitChar).reverse = ['0'] := hdata
    have hmap : (Nat.digits 10 m).map Nat.digitChar = [0].map Nat.digitChar := by
      have := congrArg List.reverse this
      simpa using this
    have hdig : Nat.digits 10 m = [0] :=
      map_digitChar_inj (fun d hd => Nat.digits_lt_base (by norm_num) hd)
        (by intro d hd; simp at hd; omega) hmap
    have := congrArg (Nat.ofDigits 10) hdig
    rw [Nat.ofDigits_digits] at this
    simp [Nat.ofDigits] at this
    exact hm this
  · exact key hm hn h

theorem pyStr_injective : ∀ {a b : Int}, pyStr a = pyStr b → a = b := by
  intro a b h
  cases a with
  | ofNat m =>
    cases b with
    | ofNat n => exact congrArg Int.ofNat (pyStrNat_injective h)
    | negSucc n =>
      exfalso
      have hdata := congrArg String.data h
      simp only [pyStr] at hdata
      rw [String.data_append] at hdata
      have : '-' ∈ (pyStrNat m).data := by rw [hdata]; simp
      exact pyStrNat_no_dash m this
  | negSucc m =>
    cases b with
    | ofNat n =>
      exfalso
      have hdata := congrArg String.data h
      simp only [pyStr] at hdata
      rw [String.data_append] at hdata
      have : '-' ∈ (pyStrNat n).data := by rw [← hdata]; simp
      exact pyStrNat_no_dash n this
    | negSucc n =>
      have hdata := congrArg String.data h
      simp only [pyStr] at hdata
      rw [String.data_append, String.data_append] at hdata
      have : (pyStrNat (m + 1)).data = (pyStrNat (n + 1)).data := by
        simpa using hdata
      have := pyStrNat_injective (String.ext this)
      exact congrArg Int.negSucc (by omega)

theorem pyStrNat_length_le {m : Nat} (h : m < 10 ^ 4) : (pyStrNat m).length ≤ 4 := by
  by_cases hm : m = 0
  · subst hm; decide
  · have : (pyStrNat m).length = (Nat.digits 10 m).length := by
      show (pyStrNat m).data.length = _
      rw [pyStrNat_data_of_ne_zero hm]
      simp
    rw [this, Nat.digits_len 10 m (by norm_num) hm]
    have := Nat.log_lt_of_lt_pow hm h
    omega

theorem zeroPad4_length {m : Nat} (h : m < 10000) : (zeroPad4 m).length = 4 := by
  have hle : (pyStrNat m).length ≤ 4 := pyStrNat_length_le (by omega)
  show (zeroPad4 m).data.length = 4
  rw [zeroPad4]
  simp only [List.length_append, List.length_replicate]
  have : (pyStrNat m).data.length = (pyStrNat m).length := rfl
  omega

theorem charListLe_cons_iff {x y : Char} {as bs : List Char} :
    charListLe (x :: as) (y :: bs) = true ↔
      x.toNat < y.toNat ∨ (x.toNat = y.toNat ∧ charListLe as bs = true) := by
  simp only [charListLe]
  split_ifs with h1 h2
  · simp [h1]
  · simp only [Bool.false_eq_true, false_iff]
    rintro (h | ⟨h, -⟩) <;> omega
  · have heq : x.toNat = y.toNat := by omega
    constructor
    · intro h
      exact Or.inr ⟨heq, h⟩
    · rintro (h | ⟨-, h⟩)
      · omega
      · exact h

theorem charListLe_total : ∀ a b : List Char,
    charListLe a b = true ∨ charListLe b a = true := by
  intro a
  induction a with
  | nil => intro b; left; rfl
  | cons x as ih =>
    intro b
    cases b with
    | nil => right; rfl
    | cons y bs =>
      rcases Nat.lt_trichotomy x.toNat y.toNat with h | h | h
      · left
        exact charListLe_cons_iff.mpr (Or.inl h)
      · rcases ih bs with hab | hba
        · left
          exact charListLe_cons_iff.mpr (Or.inr ⟨h, hab⟩)
        · right
          exact charListLe_cons_iff.mpr (Or.inr ⟨h.symm, hba⟩)
      · right
        exact charListLe_cons_iff.mpr (Or.inl h)

theorem charListLe_trans : ∀ a b c : List Char, charListLe a b = true →
    charListLe b c = true → charListLe a c = true := by
  intro a
  induction a with
  | nil => intro b c _ _; rfl
  | cons x as ih =>
    intro b c hab hbc
    cases b with
    | nil => simp [charListLe] at hab
    | cons y bs =>
      cases c with
      | nil => simp [charListLe] at hbc
      | cons z cs =>
        rcases charListLe_cons_iff.mp hab with h1 | ⟨h1, h1'⟩ <;>
          rcases charListLe_cons_iff.mp hbc with h2 | ⟨h2, h2'⟩
        · exact charListLe_cons_iff.mpr (Or.inl (by omega))
        · exact charListLe_cons_iff.mpr (Or.inl (by omega))
        · exact charListLe_cons_iff.mpr (Or.inl (by omega))
        · exact charListLe_cons_iff.mpr (Or.inr ⟨by omega, ih bs cs h1' h2'⟩)

theorem initRegistry_lookup (gt : GeneratorType) :
    ∃ cls, dictGet initRegistry gt = some cls := by
  cases gt <;> exact ⟨_, rfl⟩

theorem create_preview_log_length (cls : GeneratorClass) (input output : FsPath)
    (dpi quality : Int) (image_type : String) (env : ExtBehavior) (durTT : Nat) :
    (create_preview cls input output dpi quality image_type env durTT).log.length = 1 := by
  rcases env with ⟨exc, pf, ni, dp⟩
  cases exc <;> rfl

theorem create_preview_raised (cls : GeneratorClass) (input output : FsPath)
    (dpi quality : Int) (image_type : String) (env : ExtBehavior) (durTT : Nat) :
    (create_preview cls input output dpi quality image_type env durTT).raised = none := by
  rcases env with ⟨exc, pf, ni, dp⟩
  cases exc <;> rfl

theorem runTasks_cons_mkdirFail {ev : Evaluator} {gt : GeneratorType}
    {it : String} {mk : FsPath → Option String} {ext : RenderTask → ExtBehavior}
    {dur : RenderTask → Nat} {t : RenderTask} {ts : List RenderTask} {e : String}
    (h : mk (task_output_dir ev it t) = some e) :
    runTasks ev gt it mk ext dur (t :: ts) =
      { attempted := [], log := [], error := some e } := by
  simp [runTasks, h]

theorem runTasks_cons_ok {ev : Evaluator} {gt : GeneratorType}
    {it : String} {mk : FsPath → Option String} {ext : RenderTask → ExtBehavior}
    {dur : RenderTask → Nat} {t : RenderTask} {ts : List RenderTask}
    {cls : GeneratorClass} (h : mk (task_output_dir ev it t) = none)
    (hcls : dictGet initRegistry gt = some cls) :
    runTasks ev gt it mk ext dur (t :: ts) =
      { attempted := t :: (runTasks ev gt it mk ext dur ts).attempted
        log := (create_preview cls (ev.inputDir ++ [t.fileName])
            (task_output_file ev gt it t) t.dpi t.quality it (ext t) (dur t)).log
          ++ (runTasks ev gt it mk ext dur ts).log
        error := (runTasks ev gt it mk ext dur ts).error } := by
  simp [runTasks, h, hcls]

theorem runTasks_all_ok {ev : Evaluator} {gt : GeneratorType} {it : String}
    {mk : FsPath → Option String} {ext : RenderTask → ExtBehavior}
    {dur : RenderTask → Nat} :
    ∀ ts : List RenderTask, (∀ t ∈ ts, mk (task_output_dir ev it t) = none) →
      (runTasks ev gt it mk ext dur ts).attempted = ts ∧
      (runTasks ev gt it mk ext dur ts).log.length = ts.length ∧
      (runTasks ev gt it mk ext dur ts).error = none := by
  intro ts
  induction ts with
  | nil => intro _; exact ⟨rfl, rfl, rfl⟩
  | cons t ts ih =>
    intro h
    obtain ⟨cls, hcls⟩ := initRegistry_lookup gt
    rw [runTasks_cons_ok (h t (by simp)) hcls]
    obtain ⟨h1, h2, h3⟩ := ih (fun u hu => h u (by simp [hu]))
    refine ⟨by simp [h1], ?_, by simp [h3]⟩
    simp [h2, create_preview_log_length]
    omega

theorem runTasks_abort {ev : Evaluator} {gt : GeneratorType} {it : String}
    {mk : FsPath → Option String} {ext : RenderTask → ExtBehavior}
    {dur : RenderTask → Nat} {e : String} :
    ∀ (done : List RenderTask) (t : RenderTask) (rest : List RenderTask),
      (∀ u ∈ done, mk (task_output_dir ev it u) = none) →
      mk (task_output_dir ev it t) = some e →
      (runTasks ev gt it mk ext dur (done ++ t :: rest)).attempted = done ∧
      (runTasks ev gt it mk ext dur (done ++ t :: rest)).log.length = done.length ∧
      (runTasks ev gt it mk ext dur (done ++ t :: rest)).error = some e := by
  intro done
  induction done with
  | nil =>
    intro t rest _ hf
    rw [List.nil_append, runTasks_cons_mkdirFail hf]
    exact ⟨rfl, rfl, rfl⟩
  | cons u done ih =>
    intro t rest hok hf
    obtain ⟨cls, hcls⟩ := initRegistry_lookup gt
    rw [List.cons_append, runTasks_cons_ok (hok u (by simp)) hcls]
    obtain ⟨h1, h2, h3⟩ := ih t rest (fun v hv => hok v (by simp [hv])) hf
    refine ⟨by simp [h1], ?_, by simp [h3]⟩
    simp [h2, create_preview_log_length]
    omega

theorem tasks_nil (qs : List Int) (fs : List String) : tasks [] qs fs = [] := rfl

theorem tasks_cons (d : Int) (ds qs : List Int) (fs : List String) :
    tasks (d :: ds) qs fs =
      (qs.flatMap fun q => fs.map fun f => ⟨d, q, f⟩) ++ tasks ds qs fs := by
  simp [tasks]

theorem tasks_inner_length (d : Int) (qs : List Int) (fs : List String) :
    ((qs.flatMap fun q => fs.map fun f => (⟨d, q, f⟩ : RenderTask))).length
      = qs.length * fs.length := by
  induction qs with
  | nil => simp
  | cons q qs ihq =>
    simp only [List.flatMap_cons, List.length_append, List.length_map, ihq,
      List.length_cons]
    ring

theorem tasks_length (ds qs : List Int) (fs : List String) :
    (tasks ds qs fs).length = ds.length * qs.length * fs.length := by
  induction ds with
  | nil => simp [tasks_nil]
  | cons d ds ih =>
    rw [tasks_cons, List.length_append, tasks_inner_length, ih]
    simp only [List.length_cons]
    ring

theorem mem_tasks {ds qs : List Int} {fs : List String} {t : RenderTask} :
    t ∈ tasks ds qs fs ↔ t.dpi ∈ ds ∧ t.quality ∈ qs ∧ t.fileName ∈ fs := by
  rcases t with ⟨d, q, f⟩
  simp only [tasks, List.mem_flatMap, List.mem_map]
  constructor
  · rintro ⟨a, ha, b, hb, c, hc, h⟩
    cases h
    exact ⟨ha, hb, hc⟩
  · rintro ⟨hd, hq, hf⟩
    exact ⟨d, hd, q, hq, f, hf, rfl⟩

theorem tasks_inner_nodup (d : Int) {qs : List Int} {fs : List String}
    (hq : qs.Nodup) (hf : fs.Nodup) :
    ((qs.flatMap fun q => fs.map fun f => (⟨d, q, f⟩ : RenderTask))).Nodup := by
  rw [List.nodup_flatMap]
  refine ⟨fun q _ => hf.map ?_, ?_⟩
  · intro a b hab
    cases hab
    rfl
  · refine hq.imp ?_
    intro a b hab
    rw [Function.onFun, List.disjoint_left]
    rintro x hx hx'
    simp only [List.mem_map] at hx hx'
    obtain ⟨f1, _, rfl⟩ := hx
    obtain ⟨f2, _, h2⟩ := hx'
    cases h2
    exact hab rfl

theorem tasks_nodup {ds qs : List Int} {fs : List String}
    (hd : ds.Nodup) (hq : qs.Nodup) (hf : fs.Nodup) : (tasks ds qs fs).Nodup := by
  rw [tasks, List.nodup_flatMap]
  refine ⟨fun d _ => tasks_inner_nodup d hq hf, hd.imp ?_⟩
  intro a b hab
  rw [Function.onFun, List.disjoint_left]
  intro x hx hx'
  have h1 : x.dpi = a := by
    simp only [List.mem_flatMap, List.mem_map] at hx
    obtain ⟨q, _, f, _, rfl⟩ := hx
    rfl
  have h2 : x.dpi = b := by
    simp only [List.mem_flatMap, List.mem_map] at hx'
    obtain ⟨q, _, f, _, rfl⟩ := hx'
    rfl
  exact hab (by rw [← h1, h2])

theorem matches_pdf_glob_iff {name : String} :
    matches_pdf_glob name = true ↔ ∃ s : String, name = s ++ ".pdf" := by
  unfold matches_pdf_glob
  rw [decide_eq_true_iff]
  constructor
  · rintro ⟨pre, hpre⟩
    refine ⟨⟨pre⟩, String.ext ?_⟩
    rw [String.data_append]
    exact hpre.symm
  · rintro ⟨s, rfl⟩
    exact ⟨s.data, by rw [String.data_append]⟩

theorem mem_discover_unsorted {dir : List FSEntry} {name : String} :
    name ∈ discover_unsorted dir ↔
      ∃ e ∈ dir, e.relPath = [name] ∧ e.is_file = true ∧ matches_pdf_glob name = true := by
  simp only [discover_unsorted, List.mem_filterMap]
  constructor
  · rintro ⟨e, he, hsome⟩
    rcases e with ⟨rp, isf⟩
    match rp, hsome with
    | [n], hsome =>
      simp only at hsome
      split_ifs at hsome with hcond
      · cases hsome
        simp only [Bool.and_eq_true] at hcond
        exact ⟨⟨[name], isf⟩, he, rfl, hcond.2, hcond.1⟩
  · rintro ⟨e, he, hrel, hisf, hglob⟩
    refine ⟨e, he, ?_⟩
    rw [hrel]
    simp [hglob, hisf]

/-- C10: after `PreviewGenerationEvaluator.__init__` the registry holds a
generator instance for every one of the five `GeneratorType` values, so the
lookup `self.__generators[generator_type]` inside `run_preview_benchmark`
never takes its missing-key (`KeyError`) branch. -/
theorem c10_registry_complete :
    ∀ gt : GeneratorType, (dictGet initRegistry gt).isSome = true := by
  intro gt
  cases gt <;> rfl

/-- C2: if the adapter-specific `_create_preview` raises any exception, the
`create_preview` wrapper catches it, prints exactly the one failure line
(which contains the adapter class name and the error text), returns normally
(nothing escapes the wrapper), and the benchmark loop goes on to process the
remaining tasks. -/
theorem c2_error_isolation (cls : GeneratorClass) (input output : FsPath)
    (dpi quality : Int) (image_type : String) (env : ExtBehavior)
    (durTT : Nat) (e : String) (hexc : env.exc = some e) :
    (create_preview cls input output dpi quality image_type env durTT).raised = none ∧
    (create_preview cls input output dpi quality image_type env durTT).log
      = [error_line cls.clsName e] ∧
    appearsIn cls.clsName (error_line cls.clsName e) ∧
    appearsIn e (error_line cls.clsName e) ∧
    (∀ (ev : Evaluator) (gt : GeneratorType) (it : String)
       (mkdirErr : FsPath → Option String) (ext : RenderTask → ExtBehavior)
       (dur : RenderTask → Nat) (t : RenderTask) (ts : List RenderTask),
       mkdirErr (task_output_dir ev it t) = none →
       (runTasks ev gt it mkdirErr ext dur (t :: ts)).attempted
         = t :: (runTasks ev gt it mkdirErr ext dur ts).attempted) := by
  refine ⟨create_preview_raised cls input output dpi quality image_type env durTT,
    ?_, ?_, ?_, ?_⟩
  · rcases env with ⟨exc, pf, ni, dp⟩
    cases hexc
    rfl
  · refine ⟨"An error occurred with ", " preview generation: " ++ e, ?_⟩
    apply String.ext
    simp [error_line, String.data_append, List.append_assoc]
  · refine ⟨"An error occurred with " ++ cls.clsName ++ " preview generation: ", "", ?_⟩
    apply String.ext
    simp [error_line, String.data_append, List.append_assoc]
  · intro ev gt it mkdirErr ext dur t ts hmk
    obtain ⟨c, hc⟩ := initRegistry_lookup gt
    rw [runTasks_cons_ok hmk hc]

/-- C2 witness at a concrete failing call. -/
theorem c2_witness :
    (create_preview .WandPreviewGenerator ["in", "a.pdf"] ["out", "x.png"]
        150 75 "png" ⟨some "boom", [], 1, 1⟩ 1234).raised = none :=
  (c2_error_isolation .WandPreviewGenerator ["in", "a.pdf"] ["out", "x.png"]
    150 75 "png" ⟨some "boom", [], 1, 1⟩ 1234 "boom" rfl).1

/-- C1: with every directory creation succeeding, `run_preview_benchmark`
attempts the adapter invocation for exactly the cross product
`tasks dpi_set quality_set input_files` in order (DPI outermost, then
quality, then input file), for any per-task adapter behaviour whatsoever;
the number of attempts is |dpi_set| * |quality_set| * |input_files|, and
each combination occurs exactly once when the configuration lists are
duplicate-free. -/
theorem c1_cross_product (ev : Evaluator) (gt : GeneratorType)
    (dpi_set quality_set : List Int) (image_type : String)
    (mkdirErr : FsPath → Option String) (ext : RenderTask → ExtBehavior)
    (dur : RenderTask → Nat)
    (hd : dpi_set ≠ []) (hq : quality_set ≠ []) (hf : ev.input_files ≠ [])
    (hmk : ∀ t ∈ tasks dpi_set quality_set ev.input_files,
      mkdirErr (task_output_dir ev image_type t) = none) :
    (run_preview_benchmark ev gt dpi_set quality_set image_type mkdirErr ext
        dur).attempted = tasks dpi_set quality_set ev.input_files ∧
    (run_preview_benchmark ev gt dpi_set quality_set image_type mkdirErr ext
        dur).attempted.length
      = dpi_set.length * quality_set.length * ev.input_files.length ∧
    (dpi_set.Nodup → quality_set.Nodup → ev.input_files.Nodup →
      ∀ d ∈ dpi_set, ∀ q ∈ quality_set, ∀ f ∈ ev.input_files,
        (run_preview_benchmark ev gt dpi_set quality_set image_type mkdirErr ext
            dur).attempted.count ⟨d, q, f⟩ = 1) := by
  obtain ⟨h1, h2, h3⟩ :=
    @runTasks_all_ok ev gt image_type mkdirErr ext dur
      (tasks dpi_set quality_set ev.input_files) hmk
  simp only [run_preview_benchmark]
  refine ⟨h1, ?_, ?_⟩
  · rw [h1, tasks_length]
  · intro hnd hnq hnf d hdm q hqm f hfm
    rw [h1]
    exact List.count_eq_one_of_mem (tasks_nodup hnd hnq hnf)
      (mem_tasks.mpr ⟨hdm, hqm, hfm⟩)

/-- C1 witness at a concrete configuration. -/
theorem c1_witness :
    (run_preview_benchmark ⟨["in"], ["a.pdf"], ["out"]⟩ .FITZ [150] [75] "png"
        (fun _ => none) (fun _ => ⟨none, [], 1, 1⟩) (fun _ => 0)).attempted
      = tasks [150] [75] ["a.pdf"] :=
  (c1_cross_product ⟨["in"], ["a.pdf"], ["out"]⟩ .FITZ [150] [75] "png"
    (fun _ => none) (fun _ => ⟨none, [], 1, 1⟩) (fun _ => 0)
    (by simp) (by simp) (by simp) (fun _ _ => rfl)).1

/-- C7: a directory-creation failure inside `run_preview_benchmark` is not
caught: the loop aborts with that error, exactly the tasks before the failing
one were attempted (none after it), and only their log lines were printed —
unlike adapter errors, which `create_preview` absorbs per task. -/
theorem c7_mkdir_failure_aborts (ev : Evaluator) (gt : GeneratorType)
    (dpi_set quality_set : List Int) (image_type : String)
    (mkdirErr : FsPath → Option String) (ext : RenderTask → ExtBehavior)
    (dur : RenderTask → Nat) (done : List RenderTask) (t : RenderTask)
    (rest : List RenderTask) (e : String)
    (hsplit : tasks dpi_set quality_set ev.input_files = done ++ t :: rest)
    (hok : ∀ u ∈ done, mkdirErr (task_output_dir ev image_type u) = none)
    (hfail : mkdirErr (task_output_dir ev image_type t) = some e) :
    (run_preview_benchmark ev gt dpi_set quality_set image_type mkdirErr ext
        dur).error = some e ∧
    (run_preview_benchmark ev gt dpi_set quality_set image_type mkdirErr ext
        dur).attempted = done ∧
    (run_preview_benchmark ev gt dpi_set quality_set image_type mkdirErr ext
        dur).log.length = done.length := by
  obtain ⟨h1, h2, h3⟩ := runTasks_abort done t rest hok hfail
  simp only [run_preview_benchmark, hsplit]
  exact ⟨h3, h1, h2⟩

/-- C7 witness: a run whose very first `mkdir` fails aborts with that error. -/
theorem c7_witness :
    (run_preview_benchmark ⟨["in"], ["a.pdf"], ["out"]⟩ .FITZ [150] [75] "png"
        (fun _ => some "Permission denied") (fun _ => ⟨none, [], 1, 1⟩)
        (fun _ => 0)).error = some "Permission denied" :=
  (c7_mkdir_failure_aborts ⟨["in"], ["a.pdf"], ["out"]⟩ .FITZ [150] [75] "png"
    (fun _ => some "Permission denied") (fun _ => ⟨none, [], 1, 1⟩) (fun _ => 0)
    [] ⟨150, 75, "a.pdf"⟩ [] "Permission denied" rfl (by simp) rfl).1

/-- C5: construction discovers exactly the direct children of the input
directory that `is_file()` accepts and whose name ends with the lowercase
extension `.pdf` (so an uppercase `.PDF`, a nested file — relative path of
length two or more — or a non-file entry is excluded), and stores them sorted
lexicographically by file name. -/
theorem c5_discovery (dir : List FSEntry) :
    List.Sorted (fun a b => nameLe a b = true) (discover_input_files dir) ∧
    ∀ name : String, name ∈ discover_input_files dir ↔
      ∃ e ∈ dir, e.relPath = [name] ∧ e.is_file = true ∧
        ∃ s : String, name = s ++ ".pdf" := by
  haveI htot : IsTotal String (fun a b => nameLe a b = true) :=
    ⟨fun a b => charListLe_total a.data b.data⟩
  haveI htr : IsTrans String (fun a b => nameLe a b = true) :=
    ⟨fun a b c => charListLe_trans a.data b.data c.data⟩
  refine ⟨List.sorted_insertionSort _ _, fun name => ?_⟩
  rw [discover_input_files, List.mem_insertionSort, mem_discover_unsorted]
  constructor
  · rintro ⟨e, he, h1, h2, h3⟩
    exact ⟨e, he, h1, h2, matches_pdf_glob_iff.mp h3⟩
  · rintro ⟨e, he, h1, h2, h3⟩
    exact ⟨e, he, h1, h2, matches_pdf_glob_iff.mpr h3⟩

/-- C6 counterexample: the two distinct file names `.pdf` and `.pdf.pdf` are
both discovered from the same directory (both are lowercase-`.pdf` regular
files), yet `os.path.splitext` gives both the stem `.pdf`, so two distinct
tasks of the same configuration collide on the same output path. -/
theorem c6_counterexample :
    task_output_file ⟨["in"], [".pdf", ".pdf.pdf"], ["out"]⟩ .FITZ "png"
        ⟨150, 75, ".pdf"⟩
      = task_output_file ⟨["in"], [".pdf", ".pdf.pdf"], ["out"]⟩ .FITZ "png"
        ⟨150, 75, ".pdf.pdf"⟩ ∧
    (⟨150, 75, ".pdf"⟩ : RenderTask) ≠ ⟨150, 75, ".pdf.pdf"⟩ ∧
    discover_input_files [⟨[".pdf"], true⟩, ⟨[".pdf.pdf"], true⟩]
      = [".pdf", ".pdf.pdf"] := by
  refine ⟨by decide, by decide, by decide⟩

/-- C6 (amended): the output path of a task is built from the splitext stem
of its file name and the decimal renderings of its dpi and quality, and this
mapping is injective on tasks whose file names have distinct stems; two
distinct dot-file names sharing a stem (such as `.pdf` and `.pdf.pdf`) are
the only way two distinct tasks of one configuration can collide. -/
theorem c6_output_path_injective (ev : Evaluator) (gt : GeneratorType)
    (image_type : String) (t₁ t₂ : RenderTask)
    (hstem : splitextStem t₁.fileName = splitextStem t₂.fileName →
      t₁.fileName = t₂.fileName)
    (hpath : task_output_file ev gt image_type t₁
      = task_output_file ev gt image_type t₂) : t₁ = t₂ := by
  rcases t₁ with ⟨d₁, q₁, f₁⟩
  rcases t₂ with ⟨d₂, q₂, f₂⟩
  simp only [task_output_file, task_output_dir, List.append_assoc] at hpath
  have hcomp := List.append_cancel_left hpath
  simp only [List.cons_append, List.nil_append, List.cons.injEq] at hcomp
  obtain ⟨-, hstem', hd, hq, -⟩ := hcomp
  have hf : f₁ = f₂ := hstem hstem'
  have hd' : d₁ = d₂ := pyStr_injective hd
  have hq' : q₁ = q₂ := pyStr_injective hq
  simp [hf, hd', hq']

/-- C6 witness for the amended statement at a concrete task. -/
theorem c6_witness :
    (⟨150, 75, "a.pdf"⟩ : RenderTask) = ⟨150, 75, "a.pdf"⟩ :=
  c6_output_path_injective ⟨["in"], ["a.pdf"], ["out"]⟩ .FITZ "png"
    ⟨150, 75, "a.pdf"⟩ ⟨150, 75, "a.pdf"⟩ (fun _ => rfl) rfl

/-- C4 counterexample: when `convert_from_path` returns an empty image list,
the pdf2image adapter writes no file at all, yet `create_preview` completes
without logging an error — it logs the ordinary success line with a
duration. -/
theorem c4_counterexample :
    (create_preview .Pdf2imagePreviewGenerator ["in", "a.pdf"]
        ["out", "png", "a", "150", "75", "pdf2image.png"] 150 75 "png"
        ⟨none, [], 0, 1⟩ 42).files = [] ∧
    (create_preview .Pdf2imagePreviewGenerator ["in", "a.pdf"]
        ["out", "png", "a", "150", "75", "pdf2image.png"] 150 75 "png"
        ⟨none, [], 0, 1⟩ 42).log
      = [success_line "Pdf2imagePreviewGenerator" "a.pdf" 150 75 "png" 42] := by
  exact ⟨rfl, rfl⟩

/-- C4 (amended): an invocation of `create_preview` that completes without
logging an error writes exactly one output image file, at `output_path` —
except that the pdf2image adapter, when the underlying conversion returns no
images, writes nothing while still logging the success line. -/
theorem c4_success_single_file (cls : GeneratorClass) (input output : FsPath)
    (dpi quality : Int) (image_type : String) (env : ExtBehavior) (durTT : Nat)
    (hexc : env.exc = none)
    (himg : cls = GeneratorClass.Pdf2imagePreviewGenerator → 0 < env.numImages) :
    (create_preview cls input output dpi quality image_type env durTT).files
      = [output] ∧
    (create_preview cls input output dpi quality image_type env durTT).log
      = [success_line cls.clsName (pathName input) dpi quality image_type durTT] := by
  rcases env with ⟨exc, pf, ni, dp⟩
  simp only at hexc himg
  subst hexc
  refine ⟨?_, rfl⟩
  cases cls with
  | WandPreviewGenerator => rfl
  | Pdf2imagePreviewGenerator =>
    have hni : 0 < ni := himg rfl
    simp only [create_preview, success_files, pdf2image_create_preview, if_pos hni]
    by_cases h : image_type = "jpeg" <;> simp [h]
  | FitzPreviewGenerator => rfl
  | Pypdfium2PreviewGenerator =>
    simp only [create_preview, success_files, pypdfium2_create_preview]
    by_cases h : image_type = "jpeg" <;> simp [h]
  | PyvipsPreviewGenerator =>
    simp only [create_preview, success_files, pyvips_create_preview]
    by_cases h : image_type = "jpeg" <;> simp [h]

/-- C4 witness for the amended statement at a concrete successful call. -/
theorem c4_witness :
    (create_preview .FitzPreviewGenerator ["in", "a.pdf"] ["out", "fitz.png"]
        150 75 "png" ⟨none, [], 1, 1⟩ 42).files = [["out", "fitz.png"]] :=
  (c4_success_single_file .FitzPreviewGenerator ["in", "a.pdf"]
    ["out", "fitz.png"] 150 75 "png" ⟨none, [], 1, 1⟩ 42 rfl
    (fun h => by cases h)).1

/-- C3 counterexample: at quality 39 with image type png, the fitz adapter
passes 39 through unchanged (no rescaling at all), and the pdf2image adapter
passes compression level 3 = int(39 / 100 * 9), whereas the claimed formula
round(39 / 100 * 9) gives 4. -/
theorem c3_counterexample :
    (fitz_create_preview ["in", "a.pdf"] ["o"] 150 39 "png" 1).saveCalls
      = [⟨["o"], "png", 39⟩] ∧
    (pdf2image_create_preview ["in", "a.pdf"] ["o"] 150 39 "png" 1 1).saveCalls
      = [⟨["o"], "PNG", "compress_level", 3⟩] ∧
    (wand_create_preview ["in", "a.pdf"] ["o"] 150 39 "png" 1).compressionQuality
      = 39 ∧
    specRoundScale 39 = 4 ∧ (3 : Int) ≠ 4 ∧ (39 : Int) ≠ 4 := by
  refine ⟨by decide, by decide, by decide, by decide, by decide, by decide⟩

/-- C3 (amended): for png output the pdf2image, pypdfium2 and pyvips adapters
rescale the 0-100 quality into the 0-9 compression range by truncation,
`int(quality / 100 * 9)`; the wand and fitz adapters do not rescale — wand
assigns the quality to `compression_quality` and fitz passes it as
`jpg_quality`, both unchanged. -/
theorem c3_png_quality_translation (input output : FsPath) (dpi quality : Int)
    (docPages numImages : Nat) (hni : 0 < numImages)
    (h0 : 0 ≤ quality) (h100 : quality ≤ 100) :
    (pdf2image_create_preview input output dpi quality "png" docPages
        numImages).saveCalls
      = [⟨output, "PNG", "compress_level", compress_level quality⟩] ∧
    (pypdfium2_create_preview input output dpi quality "png" docPages).saveCalls
      = [⟨output, "PNG", "compress_level", compress_level quality⟩] ∧
    (pyvips_create_preview input output dpi quality "png" docPages).writeCalls
      = [⟨output, "compression", compress_level quality⟩] ∧
    (wand_create_preview input output dpi quality "png" docPages).compressionQuality
      = quality ∧
    (fitz_create_preview input output dpi quality "png" docPages).saveCalls
      = [⟨output, "png", quality⟩] ∧
    0 ≤ compress_level quality ∧ compress_level quality ≤ 9 := by
  have hpng : ("png" : String) ≠ "jpeg" := by decide
  refine ⟨?_, ?_, ?_, rfl, rfl, ?_, ?_⟩
  · simp [pdf2image_create_preview, if_pos hni, hpng]
  · simp [pypdfium2_create_preview, hpng]
  · simp [pyvips_create_preview, hpng]
  · exact Int.tdiv_nonneg (by linarith) (by norm_num)
  · rw [compress_level, Int.tdiv_eq_ediv (by linarith) (by norm_num)]
    calc quality * 9 / 100 ≤ 900 / 100 :=
          Int.ediv_le_ediv (by norm_num) (by linarith)
      _ = 9 := by decide

/-- C3 witness for the amended statement at quality 39. -/
theorem c3_witness :
    (pdf2image_create_preview ["in", "a.pdf"] ["o"] 150 39 "png" 1 1).saveCalls
      = [⟨["o"], "PNG", "compress_level", compress_level 39⟩] :=
  (c3_png_quality_translation ["in", "a.pdf"] ["o"] 150 39 1 1 (by decide)
    (by decide) (by decide)).1

/-- C9: every adapter asks its external library for the first page only —
fitz calls `load_page(0)`, pypdfium2 takes `doc[0]`, pyvips passes `page=0`,
pdf2image restricts the conversion to `first_page=1, last_page=1`, and wand
appends the page selector `[0]` to the file name — independently of the
document's page count. -/
theorem c9_first_page_only (input output : FsPath) (dpi quality : Int)
    (image_type : String) (docPages numImages : Nat) :
    (fitz_create_preview input output dpi quality image_type docPages).loadPageArg
      = 0 ∧
    (pypdfium2_create_preview input output dpi quality image_type docPages).docIndex
      = 0 ∧
    (pyvips_create_preview input output dpi quality image_type docPages).pageArg
      = 0 ∧
    (pdf2image_create_preview input output dpi quality image_type docPages
        numImages).firstPage = 1 ∧
    (pdf2image_create_preview input output dpi quality image_type docPages
        numImages).lastPage = 1 ∧
    bracketPage
      (wand_create_preview input output dpi quality image_type
        docPages).filenameArg = some 0 := by
  refine ⟨rfl, rfl, rfl, rfl, rfl, ?_⟩
  show bracketPage (fsPathStr input ++ "[0]") = some 0
  have hrev : (fsPathStr input ++ "[0]").data.reverse
      = ']' :: '0' :: '[' :: (fsPathStr input).data.reverse := by
    rw [String.data_append, List.reverse_append]
    rfl
  unfold bracketPage
  rw [hrev]
  show (if ']' = ']' ∧ '[' = '[' ∧ Char.isDigit '0' then
      some (Char.toNat '0' - 48) else none) = some 0
  rw [if_pos (by decide)]
  decide

theorem data_empty : ("" : String).data = [] := rfl

/-- C8: every `create_preview` call prints exactly one line — on success the
success line, which contains the adapter class name, the input file name, the
dpi, quality and image_type parameters, and the duration with exactly four
decimal digits; on failure the failure line with the class name and the error
— so a completed run over D dpi values, Q quality values and N input files
prints exactly D*Q*N lines. -/
theorem c8_one_line_per_call (cls : GeneratorClass) (input output : FsPath)
    (dpi quality : Int) (image_type : String) (env : ExtBehavior) (durTT : Nat) :
    (create_preview cls input output dpi quality image_type env durTT).log.length
      = 1 ∧
    (env.exc = none →
      (create_preview cls input output dpi quality image_type env durTT).log
        = [success_line cls.clsName (pathName input) dpi quality image_type durTT] ∧
      appearsIn cls.clsName
        (success_line cls.clsName (pathName input) dpi quality image_type durTT) ∧
      appearsIn (pathName input)
        (success_line cls.clsName (pathName input) dpi quality image_type durTT) ∧
      appearsIn ("dpi=" ++ pyStr dpi)
        (success_line cls.clsName (pathName input) dpi quality image_type durTT) ∧
      appearsIn ("quality=" ++ pyStr quality)
        (success_line cls.clsName (pathName input) dpi quality image_type durTT) ∧
      appearsIn ("image_type=" ++ pyRepr image_type)
        (success_line cls.clsName (pathName input) dpi quality image_type durTT) ∧
      appearsIn (format4f durTT)
        (success_line cls.clsName (pathName input) dpi quality image_type durTT) ∧
      (zeroPad4 (durTT % 10000)).length = 4) ∧
    (∀ e : String, env.exc = some e →
      (create_preview cls input output dpi quality image_type env durTT).log
        = [error_line cls.clsName e]) ∧
    (∀ (ev : Evaluator) (gt : GeneratorType) (dpi_set quality_set : List Int)
       (mkdirErr : FsPath → Option String) (ext2 : RenderTask → ExtBehavior)
       (dur2 : RenderTask → Nat),
       (∀ t ∈ tasks dpi_set quality_set ev.input_files,
         mkdirErr (task_output_dir ev image_type t) = none) →
       (run_preview_benchmark ev gt dpi_set quality_set image_type mkdirErr ext2
           dur2).log.length
         = dpi_set.length * quality_set.length * ev.input_files.length) := by
  refine ⟨create_preview_log_length cls input output dpi quality image_type env
    durTT, ?_, ?_, ?_⟩
  · intro hexc
    rcases env with ⟨exc, pf, ni, dp⟩
    simp only at hexc
    subst hexc
    refine ⟨rfl, ?_, ?_, ?_, ?_, ?_, ?_,
      zeroPad4_length (Nat.mod_lt durTT (by norm_num))⟩
    · refine ⟨"", " " ++ pathName input ++ " " ++ "dpi=" ++ pyStr dpi ++ " "
        ++ "quality=" ++ pyStr quality ++ " " ++ "image_type="
        ++ pyRepr image_type ++ ": " ++ format4f durTT, ?_⟩
      apply String.ext
      simp [success_line, String.data_append, List.append_assoc, data_empty]
    · refine ⟨cls.clsName ++ " ", " " ++ "dpi=" ++ pyStr dpi ++ " "
        ++ "quality=" ++ pyStr quality ++ " " ++ "image_type="
        ++ pyRepr image_type ++ ": " ++ format4f durTT, ?_⟩
      apply String.ext
      simp [success_line, String.data_append, List.append_assoc]
    · refine ⟨cls.clsName ++ " " ++ pathName input ++ " ", " " ++ "quality="
        ++ pyStr quality ++ " " ++ "image_type=" ++ pyRepr image_type ++ ": "
        ++ format4f durTT, ?_⟩
      apply String.ext
      simp [success_line, String.data_append, List.append_assoc]
    · refine ⟨cls.clsName ++ " " ++ pathName input ++ " " ++ "dpi="
        ++ pyStr dpi ++ " ", " " ++ "image_type=" ++ pyRepr image_type ++ ": "
        ++ format4f durTT, ?_⟩
      apply String.ext
      simp [success_line, String.data_append, List.append_assoc]
    · refine ⟨cls.clsName ++ " " ++ pathName input ++ " " ++ "dpi="
        ++ pyStr dpi ++ " " ++ "quality=" ++ pyStr quality ++ " ",
        ": " ++ format4f durTT, ?_⟩
      apply String.ext
      simp [success_line, String.data_append, List.append_assoc]
    · refine ⟨cls.clsName ++ " " ++ pathName input ++ " " ++ "dpi="
        ++ pyStr dpi ++ " " ++ "quality=" ++ pyStr quality ++ " "
        ++ "image_type=" ++ pyRepr image_type ++ ": ", "", ?_⟩
      apply String.ext
      simp [success_line, String.data_append, List.append_assoc, data_empty]
  · intro e hexc
    rcases env with ⟨exc, pf, ni, dp⟩
    simp only at hexc
    subst hexc
    rfl
  · intro ev gt dpi_set quality_set mkdirErr ext2 dur2 hmk
    obtain ⟨-, h2, -⟩ :=
      @runTasks_all_ok ev gt image_type mkdirErr ext2 dur2
        (tasks dpi_set quality_set ev.input_files) hmk
    simp only [run_preview_benchmark]
    rw [h2, tasks_length]

/-- C8 witness: the log of a concrete successful call is the single success
line. -/
theorem c8_witness :
    (create_preview .FitzPreviewGenerator ["in", "a.pdf"] ["out", "fitz.png"]
        150 75 "png" ⟨none, [], 1, 1⟩ 5000).log
      = [success_line "FitzPreviewGenerator" "a.pdf" 150 75 "png" 5000] :=
  ((c8_one_line_per_call .FitzPreviewGenerator ["in", "a.pdf"]
    ["out", "fitz.png"] 150 75 "png" ⟨none, [], 1, 1⟩ 5000).2.1 rfl).1
